import Mathlib

/-!
Verification of the webdriver-rust wire-protocol codec (`src/error.rs`,
`src/command.rs`) against its natural-language specification.

The JSON tree, the small leaf codecs (`Nullable`, `WebElement`, `Date`,
`FrameId`, `LocatorStrategy`) and the `Route` enum live outside the two
source files; they are modelled from the specification, which treats them
as already-correct external collaborators.  Everything else is translated
directly from the Rust source.
-/

namespace WebdriverRust

/-- Modelled from the spec: the external JSON parser's value tree
("object/array/string/number/bool/null probes"), mirroring the
`rustc_serialize` `Json` enum used by the source.  The `F64` payload is
carried exactly as a rational so that no floating-point reasoning is
needed. -/
inductive Json where
  | i64 (n : Int)
  | u64 (n : Nat)
  | f64 (q : Rat)
  | str (s : String)
  | boolean (b : Bool)
  | array (xs : List Json)
  | object (kvs : List (String × Json))
  | null

/-- `Json::as_object`: `Some` of the key/value list exactly when the value
is an object. -/
def Json.as_object : Json → Option (List (String × Json))
  | .object kvs => some kvs
  | _ => none

/-- `Json::as_string`. -/
def Json.as_string : Json → Option String
  | .str s => some s
  | _ => none

/-- `Json::as_boolean`. -/
def Json.as_boolean : Json → Option Bool
  | .boolean b => some b
  | _ => none

/-- `Json::as_array`. -/
def Json.as_array : Json → Option (List Json)
  | .array xs => some xs
  | _ => none

/-- `Json::as_u64`: defined on the integer variants (the `I64` payload is
cast with two's-complement wraparound, as `n as u64` does in Rust). -/
def Json.as_u64 : Json → Option Nat
  | .u64 n => some n
  | .i64 n => some (n % (2 ^ 64 : Int)).toNat
  | _ => none

/-- `Json::as_f64`: defined on all three numeric variants. -/
def Json.as_f64 : Json → Option Rat
  | .u64 n => some (n : Rat)
  | .i64 n => some (n : Rat)
  | .f64 q => some q
  | _ => none

/-- `BTreeMap::get`: first binding of the key in the key/value list. -/
def Json.getKey (j : Json) (k : String) : Option Json :=
  match j.as_object with
  | some kvs => kvs.lookup k
  | none => none

/-- Lexicographic order on character lists, by code point (for valid
UTF-8 this agrees with the byte-wise `Ord` on Rust `String` keys that
`BTreeMap` uses). -/
def charListLt : List Char → List Char → Bool
  | [], [] => false
  | [], _ :: _ => true
  | _ :: _, [] => false
  | a :: as, b :: bs =>
    if a.toNat.blt b.toNat then true
    else if b.toNat.blt a.toNat then false
    else charListLt as bs

/-- The `BTreeMap` key order on strings. -/
def keyLt (a b : String) : Bool := charListLt a.toList b.toList

/-- Key-ordered insertion, mirroring `BTreeMap::insert` (replaces an
existing binding for an equal key). -/
def objInsert (k : String) (v : Json) : List (String × Json) → List (String × Json)
  | [] => [(k, v)]
  | (k', v') :: rest =>
    if keyLt k k' then (k, v) :: (k', v') :: rest
    else if k = k' then (k, v) :: rest
    else (k', v') :: objInsert k v rest

/-- Building a `Json::Object` from a `BTreeMap` populated by successive
inserts, as every `to_json` in the source does. -/
def mkObj (kvs : List (String × Json)) : Json :=
  .object (kvs.foldl (fun acc p => objInsert p.1 p.2 acc) [])

/-- The keys of a JSON object (empty for non-objects). -/
def Json.objKeys : Json → List String
  | .object kvs => kvs.map Prod.fst
  | _ => []

/-! ## `src/error.rs` -/

/-- `ErrorStatus` (`src/error.rs` lines 12–39): the closed enum of error
kinds. -/
inductive ErrorStatus where
  | ElementNotSelectable
  | ElementNotVisible
  | InsecureCertificate
  | InvalidArgument
  | InvalidCookieDomain
  | InvalidElementCoordinates
  | InvalidElementState
  | InvalidSelector
  | InvalidSessionId
  | JavascriptError
  | MoveTargetOutOfBounds
  | NoSuchAlert
  | NoSuchElement
  | NoSuchFrame
  | NoSuchWindow
  | ScriptTimeout
  | SessionNotCreated
  | StaleElementReference
  | Timeout
  | UnableToSetCookie
  | UnexpectedAlertOpen
  | UnknownError
  | UnknownMethod
  | UnknownPath
  | UnsupportedOperation
deriving DecidableEq

/-- `ErrorStatus::status_code` (`src/error.rs` lines 42–70): the wire
string of each kind. -/
def ErrorStatus.status_code : ErrorStatus → String
  | .ElementNotSelectable => "element not selectable"
  | .ElementNotVisible => "element not visible"
  | .InsecureCertificate => "insecure certificate"
  | .InvalidArgument => "invalid argument"
  | .InvalidCookieDomain => "invalid cookie domain"
  | .InvalidElementCoordinates => "invalid element coordinates"
  | .InvalidElementState => "invalid element state"
  | .InvalidSelector => "invalid selector"
  | .InvalidSessionId => "invalid session id"
  | .JavascriptError => "javascript error"
  | .MoveTargetOutOfBounds => "move target out of bounds"
  | .NoSuchAlert => "no such alert"
  | .NoSuchElement => "no such element"
  | .NoSuchFrame => "no such frame"
  | .NoSuchWindow => "no such window"
  | .ScriptTimeout => "script timeout"
  | .SessionNotCreated => "session not created"
  | .StaleElementReference => "stale element reference"
  | .Timeout => "timeout"
  | .UnableToSetCookie => "unable to set cookie"
  | .UnexpectedAlertOpen => "unexpected alert open"
  | .UnknownError => "unknown error"
  | .UnknownMethod => "unknown command"
  | .UnknownPath => "unknown command"
  | .UnsupportedOperation => "unsupported operation"

/-- `ErrorStatus::http_status` (`src/error.rs` lines 72–100), with the
external `hyper::status::StatusCode` enum rendered by its numeric code
(`BadRequest` = 400, `NotFound` = 404, `MethodNotAllowed` = 405,
`RequestTimeout` = 408, `InternalServerError` = 500). -/
def ErrorStatus.http_status : ErrorStatus → Nat
  | .ElementNotSelectable => 400
  | .ElementNotVisible => 400
  | .InsecureCertificate => 400
  | .InvalidArgument => 400
  | .InvalidCookieDomain => 400
  | .InvalidElementCoordinates => 400
  | .InvalidElementState => 400
  | .InvalidSelector => 400
  | .InvalidSessionId => 404
  | .JavascriptError => 500
  | .MoveTargetOutOfBounds => 500
  | .NoSuchAlert => 400
  | .NoSuchElement => 404
  | .NoSuchFrame => 400
  | .NoSuchWindow => 400
  | .ScriptTimeout => 408
  | .SessionNotCreated => 500
  | .StaleElementReference => 400
  | .Timeout => 408
  | .UnableToSetCookie => 500
  | .UnexpectedAlertOpen => 500
  | .UnknownError => 500
  | .UnknownMethod => 405
  | .UnknownPath => 404
  | .UnsupportedOperation => 500

/-- The spec's §4.1 table, wire-string column, transcribed verbatim
(hyphenated, as printed there; the table's `(method)` / `(path)`
annotations distinguish the two `unknown-command` rows and are not part
of the string). -/
def specTableWire : ErrorStatus → String
  | .ElementNotSelectable => "element-not-selectable"
  | .ElementNotVisible => "element-not-visible"
  | .InsecureCertificate => "insecure-certificate"
  | .InvalidArgument => "invalid-argument"
  | .InvalidCookieDomain => "invalid-cookie-domain"
  | .InvalidElementCoordinates => "invalid-element-coordinates"
  | .InvalidElementState => "invalid-element-state"
  | .InvalidSelector => "invalid-selector"
  | .InvalidSessionId => "invalid-session-id"
  | .JavascriptError => "javascript-error"
  | .MoveTargetOutOfBounds => "move-target-out-of-bounds"
  | .NoSuchAlert => "no-such-alert"
  | .NoSuchElement => "no-such-element"
  | .NoSuchFrame => "no-such-frame"
  | .NoSuchWindow => "no-such-window"
  | .ScriptTimeout => "script-timeout"
  | .SessionNotCreated => "session-not-created"
  | .StaleElementReference => "stale-element-reference"
  | .Timeout => "timeout"
  | .UnableToSetCookie => "unable-to-set-cookie"
  | .UnexpectedAlertOpen => "unexpected-alert-open"
  | .UnknownError => "unknown-error"
  | .UnknownMethod => "unknown-command"
  | .UnknownPath => "unknown-command"
  | .UnsupportedOperation => "unsupported-operation"

/-- The spec's §4.1 table, HTTP-status column, transcribed verbatim. -/
def specTableHttp : ErrorStatus → Nat
  | .ElementNotSelectable => 400
  | .ElementNotVisible => 400
  | .InsecureCertificate => 400
  | .InvalidArgument => 400
  | .InvalidCookieDomain => 400
  | .InvalidElementCoordinates => 400
  | .InvalidElementState => 400
  | .InvalidSelector => 400
  | .InvalidSessionId => 404
  | .JavascriptError => 500
  | .MoveTargetOutOfBounds => 500
  | .NoSuchAlert => 400
  | .NoSuchElement => 404
  | .NoSuchFrame => 400
  | .NoSuchWindow => 400
  | .ScriptTimeout => 408
  | .SessionNotCreated => 500
  | .StaleElementReference => 400
  | .Timeout => 408
  | .UnableToSetCookie => 500
  | .UnexpectedAlertOpen => 500
  | .UnknownError => 500
  | .UnknownMethod => 405
  | .UnknownPath => 404
  | .UnsupportedOperation => 500

/-- Rendering a hyphenated spec-table entry in the source's space-separated
form. -/
def despace (s : String) : String :=
  ⟨s.data.map (fun c => if c = '-' then ' ' else c)⟩

/-- Modelled from the spec: the external `backtrace::Backtrace` crate.
The codec only ever captures a trace (`Backtrace::new()`) and renders it
to an opaque string, so a single-constructor type with a fixed rendering
suffices. -/
inductive Backtrace where
  | captured
deriving DecidableEq

def Backtrace.new : Backtrace := .captured

/-- `format!("\x7b:?\x7d", backtrace)`: the opaque rendered trace. -/
def Backtrace.render : Backtrace → String
  | .captured => "<backtrace>"

/-- `WebDriverError` (`src/error.rs` lines 105–111). -/
structure WebDriverError where
  error : ErrorStatus
  message : String
  backtrace : Backtrace
  delete_session : Bool
deriving DecidableEq

/-- `WebDriverError::new` (`src/error.rs` lines 119–129). -/
def WebDriverError.new (error : ErrorStatus) (message : String) : WebDriverError :=
  { error := error
    message := message
    backtrace := Backtrace.new
    delete_session := false }

/-- `WebDriverError::status_code` (`src/error.rs` lines 131–133). -/
def WebDriverError.status_code (e : WebDriverError) : String :=
  e.error.status_code

/-- `WebDriverError::http_status` (`src/error.rs` lines 135–137). -/
def WebDriverError.http_status (e : WebDriverError) : Nat :=
  e.error.http_status

/-- `impl ToJson for WebDriverError` (`src/error.rs` lines 144–153). -/
def WebDriverError.to_json (e : WebDriverError) : Json :=
  mkObj [("error", .str e.status_code),
         ("message", .str e.message),
         ("stacktrace", .str e.backtrace.render)]

/-- `WebDriverResult<T> = Result<T, WebDriverError>`. -/
abbrev WebDriverResult (α : Type) := Except WebDriverError α

/-- The `try_opt!` macro: unwrap the option or fail with the given kind
and message. -/
def tryOpt {α : Type} (x : Option α) (k : ErrorStatus) (msg : String) :
    WebDriverResult α :=
  match x with
  | some v => .ok v
  | none => .error (WebDriverError.new k msg)

/-- The kind of the error a computation failed with, if it failed. -/
def errKind {α : Type} : WebDriverResult α → Option ErrorStatus
  | .error e => some e.error
  | .ok _ => none

/-- The message of the error a computation failed with, if it failed. -/
def errMessage {α : Type} : WebDriverResult α → Option String
  | .error e => some e.message
  | .ok _ => none

/-! ## Leaf codecs (`common.rs`, not under `src/`; modelled from the spec) -/

/-- Modelled from the spec: `Nullable<T>`, "present-with-value /
present-null"; validators map an absent field to the null state
themselves. -/
inductive Nullable (α : Type) where
  | value (x : α)
  | null
deriving DecidableEq

/-- Modelled from the spec: `Nullable::from_json` — JSON `null` gives the
null state, any other value is validated by `T`'s own codec, whose
failures propagate. -/
def Nullable.from_json {α : Type} (j : Json) (f : Json → WebDriverResult α) :
    WebDriverResult (Nullable α) :=
  match j with
  | .null => .ok .null
  | x => (f x).map .value

/-- Modelled from the spec: `Nullable::to_json` — the null state renders
as explicit JSON `null`, a value renders through `T`'s codec. -/
def Nullable.to_json {α : Type} (f : α → Json) : Nullable α → Json
  | .value x => f x
  | .null => .null

/-- Modelled from the spec: `WebElement`, "an opaque element handle,
essentially a string id". -/
structure WebElement where
  id : String
deriving DecidableEq

def WebElement.new (id : String) : WebElement := ⟨id⟩

/-- Modelled from the spec: `Date`, "a numeric timestamp wrapper"; the
`AddCookie` validator builds one from an unsigned integer. -/
structure Date where
  secs : Nat
deriving DecidableEq

def Date.new (secs : Nat) : Date := ⟨secs⟩

def Date.to_json (d : Date) : Json := .u64 d.secs

/-- Modelled from the spec: `LocatorStrategy`, a small closed enum with
its own JSON codec; the W3C strategy names serve as the wire strings. -/
inductive LocatorStrategy where
  | cssSelector
  | linkText
  | partialLinkText
  | xpath
deriving DecidableEq

/-- Modelled from the spec: `LocatorStrategy::from_json`, decoding the
strategy from its wire string and failing `InvalidArgument` otherwise. -/
def LocatorStrategy.from_json (j : Json) : WebDriverResult LocatorStrategy :=
  match j.as_string with
  | some "css selector" => .ok .cssSelector
  | some "link text" => .ok .linkText
  | some "partial link text" => .ok .partialLinkText
  | some "xpath" => .ok .xpath
  | _ => .error (WebDriverError.new .InvalidArgument "Unknown locator strategy")

/-- Modelled from the spec: `LocatorStrategy::to_json`. -/
def LocatorStrategy.to_json : LocatorStrategy → Json
  | .cssSelector => .str "css selector"
  | .linkText => .str "link text"
  | .partialLinkText => .str "partial link text"
  | .xpath => .str "xpath"

/-- Modelled from the spec: `FrameId`, a small closed type with its own
JSON codec — a numeric frame index, an element handle, or null. -/
inductive FrameId where
  | short (n : Nat)
  | element (e : WebElement)
  | null
deriving DecidableEq

/-- Modelled from the spec: `FrameId::from_json`. -/
def FrameId.from_json (j : Json) : WebDriverResult FrameId :=
  match j with
  | .u64 n => if n < 65536 then .ok (.short n)
              else .error (WebDriverError.new .InvalidArgument "frame id out of range")
  | .str s => .ok (.element (WebElement.new s))
  | .null => .ok .null
  | _ => .error (WebDriverError.new .InvalidArgument "Invalid frame id")

/-- Modelled from the spec: `FrameId::to_json`. -/
def FrameId.to_json : FrameId → Json
  | .short n => .u64 n
  | .element e => .str e.id
  | .null => .null

/-! ## `src/command.rs`: parameter records and validators -/

/-- `GetParameters` (`src/command.rs` lines 344–347). -/
structure GetParameters where
  url : String
deriving DecidableEq

/-- `impl Parameters for GetParameters` (`src/command.rs` lines 349–363). -/
def GetParameters.from_json (body : Json) : WebDriverResult GetParameters := do
  let data ← tryOpt body.as_object .UnknownError "Message body was not an object"
  let url ← tryOpt (← tryOpt (data.lookup "url") .InvalidArgument
        "Missing 'url' parameter").as_string .InvalidArgument "'url' not a string"
  return { url := url }

/-- `impl ToJson for GetParameters` (`src/command.rs` lines 365–371). -/
def GetParameters.to_json (p : GetParameters) : Json :=
  mkObj [("url", .str p.url)]

/-- `TimeoutsParameters` (`src/command.rs` lines 373–377); the `f64` field
is carried exactly as a rational. -/
structure TimeoutsParameters where
  type_ : String
  ms : Rat
deriving DecidableEq

/-- `impl Parameters for TimeoutsParameters` (`src/command.rs` lines
379–401). -/
def TimeoutsParameters.from_json (body : Json) : WebDriverResult TimeoutsParameters := do
  let data ← tryOpt body.as_object .UnknownError "Message body was not an object"
  let type_ ← tryOpt (← tryOpt (data.lookup "type") .InvalidArgument
        "Missing 'type' parameter").as_string .InvalidArgument "'type' not a string"
  let ms ← tryOpt (← tryOpt (data.lookup "ms") .InvalidArgument
        "Missing 'ms' parameter").as_f64 .InvalidArgument "'ms' not a float"
  return { type_ := type_, ms := ms }

/-- `impl ToJson for TimeoutsParameters` (`src/command.rs` lines 403–410). -/
def TimeoutsParameters.to_json (p : TimeoutsParameters) : Json :=
  mkObj [("type", .str p.type_), ("ms", .f64 p.ms)]

/-- `WindowSizeParameters` (`src/command.rs` lines 412–416). -/
structure WindowSizeParameters where
  width : Nat
  height : Nat
deriving DecidableEq

/-- `impl Parameters for WindowSizeParameters` (`src/command.rs` lines
418–439). -/
def WindowSizeParameters.from_json (body : Json) : WebDriverResult WindowSizeParameters := do
  let data ← tryOpt body.as_object .UnknownError "Message body was not an object"
  let height ← tryOpt (← tryOpt (data.lookup "height") .InvalidArgument
        "Missing 'height' parameter").as_u64 .InvalidArgument
        "'height' is not a positive integer"
  let width ← tryOpt (← tryOpt (data.lookup "width") .InvalidArgument
        "Missing width parameter").as_u64 .InvalidArgument
        "'width' is not a positive integer"
  return { height := height, width := width }

/-- `impl ToJson for WindowSizeParameters` (`src/command.rs` lines
441–448). -/
def WindowSizeParameters.to_json (p : WindowSizeParameters) : Json :=
  mkObj [("width", .u64 p.width), ("height", .u64 p.height)]

/-- `SwitchToWindowParameters` (`src/command.rs` lines 450–453). -/
structure SwitchToWindowParameters where
  handle : String
deriving DecidableEq

/-- `impl Parameters for SwitchToWindowParameters` (`src/command.rs` lines
455–469). -/
def SwitchToWindowParameters.from_json (body : Json) :
    WebDriverResult SwitchToWindowParameters := do
  let data ← tryOpt body.as_object .UnknownError "Message body was not an object"
  let handle ← tryOpt (← tryOpt (data.lookup "handle") .InvalidArgument
        "Missing 'handle' parameter").as_string .InvalidArgument "'handle' not a string"
  return { handle := handle }

/-- `impl ToJson for SwitchToWindowParameters` (`src/command.rs` lines
471–477). -/
def SwitchToWindowParameters.to_json (p : SwitchToWindowParameters) : Json :=
  mkObj [("handle", .str p.handle)]

/-- `LocatorParameters` (`src/command.rs` lines 479–483). -/
structure LocatorParameters where
  using_ : LocatorStrategy
  value : String
deriving DecidableEq

/-- `impl Parameters for LocatorParameters` (`src/command.rs` lines
485–507). -/
def LocatorParameters.from_json (body : Json) : WebDriverResult LocatorParameters := do
  let data ← tryOpt body.as_object .UnknownError "Message body was not an object"
  let using_ ← LocatorStrategy.from_json (← tryOpt (data.lookup "using")
        .InvalidArgument "Missing 'using' parameter")
  let value ← tryOpt (← tryOpt (data.lookup "value") .InvalidArgument
        "Missing 'value' parameter").as_string .InvalidArgument
        "Could not convert using to string"
  return { using_ := using_, value := value }

/-- `impl ToJson for LocatorParameters` (`src/command.rs` lines 509–516). -/
def LocatorParameters.to_json (p : LocatorParameters) : Json :=
  mkObj [("using", p.using_.to_json), ("value", .str p.value)]

/-- `SwitchToFrameParameters` (`src/command.rs` lines 518–521). -/
structure SwitchToFrameParameters where
  id : FrameId
deriving DecidableEq

/-- `impl Parameters for SwitchToFrameParameters` (`src/command.rs` lines
523–536).  Note the missing-`id` failure uses `UnknownError`. -/
def SwitchToFrameParameters.from_json (body : Json) :
    WebDriverResult SwitchToFrameParameters := do
  let data ← tryOpt body.as_object .UnknownError "Message body was not an object"
  let id ← FrameId.from_json (← tryOpt (data.lookup "id") .UnknownError
        "Missing 'id' parameter")
  return { id := id }

/-- `impl ToJson for SwitchToFrameParameters` (`src/command.rs` lines
538–544). -/
def SwitchToFrameParameters.to_json (p : SwitchToFrameParameters) : Json :=
  mkObj [("id", p.id.to_json)]

/-- `SendKeysParameters` (`src/command.rs` lines 546–549). -/
structure SendKeysParameters where
  value : List Char
deriving DecidableEq

/-- One element of the `value` array in `SendKeysParameters::from_json`:
must be a string of exactly one character (`chars.len() != 1` fails), the
single character is returned (`chars[0]`). -/
def sendKeysChar (x : Json) : WebDriverResult Char := do
  let str_value ← tryOpt x.as_string .InvalidArgument "Value was not a string"
  match str_value.toList with
  | [c] => return c
  | _ => .error (WebDriverError.new .InvalidArgument "Value was not a string")

/-- `iter().map(..).collect::<Result<Vec<_>, _>>()`: first failure wins. -/
def collectResults {α : Type} (f : Json → WebDriverResult α) :
    List Json → WebDriverResult (List α)
  | [] => .ok []
  | x :: rest => do
    let v ← f x
    let vs ← collectResults f rest
    return v :: vs

/-- `impl Parameters for SendKeysParameters` (`src/command.rs` lines
551–578).  Note the non-object failure here uses `InvalidArgument`. -/
def SendKeysParameters.from_json (body : Json) : WebDriverResult SendKeysParameters := do
  let data ← tryOpt body.as_object .InvalidArgument "Message body was not an object"
  let value_json ← tryOpt (← tryOpt (data.lookup "value") .InvalidArgument
        "Missing 'value' parameter").as_array .InvalidArgument
        "Could not convert 'value' to array"
  let value ← collectResults sendKeysChar value_json
  return { value := value }

/-- `impl ToJson for SendKeysParameters` (`src/command.rs` lines 580–589):
each character re-renders as a one-character string. -/
def SendKeysParameters.to_json (p : SendKeysParameters) : Json :=
  mkObj [("value", .array (p.value.map (fun c => .str (String.mk [c]))))]

/-- `JavascriptCommandParameters` (`src/command.rs` lines 591–595). -/
structure JavascriptCommandParameters where
  script : String
  args : Nullable (List Json)

/-- `impl Parameters for JavascriptCommandParameters` (`src/command.rs`
lines 597–627). -/
def JavascriptCommandParameters.from_json (body : Json) :
    WebDriverResult JavascriptCommandParameters := do
  let data ← tryOpt body.as_object .InvalidArgument "Message body was not an object"
  let args_json ← tryOpt (data.lookup "args") .InvalidArgument "Missing args parameter"
  let args ← Nullable.from_json args_json (fun x =>
    tryOpt x.as_array .InvalidArgument "Failed to convert args to Array")
  let script ← tryOpt (← tryOpt (data.lookup "script") .InvalidArgument
        "Missing script parameter").as_string .InvalidArgument
        "Failed to convert script to String"
  return { script := script, args := args }

/-- `impl ToJson for JavascriptCommandParameters` (`src/command.rs` lines
629–637). -/
def JavascriptCommandParameters.to_json (p : JavascriptCommandParameters) : Json :=
  mkObj [("script", .str p.script), ("args", p.args.to_json Json.array)]

/-- `GetCookieParameters` (`src/command.rs` lines 639–642). -/
structure GetCookieParameters where
  name : Nullable String
deriving DecidableEq

/-- `impl Parameters for GetCookieParameters` (`src/command.rs` lines
644–662). -/
def GetCookieParameters.from_json (body : Json) : WebDriverResult GetCookieParameters := do
  let data ← tryOpt body.as_object .InvalidArgument "Message body was not an object"
  let name_json ← tryOpt (data.lookup "name") .InvalidArgument "Missing 'name' parameter"
  let name ← Nullable.from_json name_json (fun x =>
    tryOpt x.as_string .InvalidArgument "Failed to convert name to String")
  return { name := name }

/-- `impl ToJson for GetCookieParameters` (`src/command.rs` lines 664–670). -/
def GetCookieParameters.to_json (p : GetCookieParameters) : Json :=
  mkObj [("name", p.name.to_json Json.str)]

/-- `AddCookieParameters` (`src/command.rs` lines 672–682). -/
structure AddCookieParameters where
  name : String
  value : String
  path : Nullable String
  domain : Nullable String
  expiry : Nullable Date
  maxAge : Nullable Date
  secure : Bool
  httpOnly : Bool
deriving DecidableEq

/-- `impl Parameters for AddCookieParameters` (`src/command.rs` lines
684–781): `name`/`value` required strings; `path`/`domain`/`expiry`/
`maxAge` optional with absence mapped to `Nullable::Null`; `secure`/
`httpOnly` optional booleans defaulting to `false`. -/
def AddCookieParameters.from_json (body : Json) : WebDriverResult AddCookieParameters := do
  let data ← tryOpt body.as_object .InvalidArgument "Message body was not an object"
  let name ← tryOpt (← tryOpt (data.lookup "name") .InvalidArgument
        "Missing 'name' parameter").as_string .InvalidArgument "'name' is not a string"
  let value ← tryOpt (← tryOpt (data.lookup "value") .InvalidArgument
        "Missing 'value' parameter").as_string .InvalidArgument "'value' is not a string"
  let path ← match data.lookup "path" with
    | some path_json => Nullable.from_json path_json (fun x =>
        tryOpt x.as_string .InvalidArgument "Failed to convert path to String")
    | none => pure Nullable.null
  let domain ← match data.lookup "domain" with
    | some domain_json => Nullable.from_json domain_json (fun x =>
        tryOpt x.as_string .InvalidArgument "Failed to convert domain to String")
    | none => pure Nullable.null
  let expiry ← match data.lookup "expiry" with
    | some expiry_json => Nullable.from_json expiry_json (fun x =>
        (tryOpt x.as_u64 .InvalidArgument "Failed to convert expiry to Date").map Date.new)
    | none => pure Nullable.null
  let max_age ← match data.lookup "maxAge" with
    | some max_age_json => Nullable.from_json max_age_json (fun x =>
        (tryOpt x.as_u64 .InvalidArgument "Failed to convert expiry to Date").map Date.new)
    | none => pure Nullable.null
  let secure ← match data.lookup "secure" with
    | some x => tryOpt x.as_boolean .InvalidArgument "Failed to convert secure to boolean"
    | none => pure false
  let http_only ← match data.lookup "httpOnly" with
    | some x => tryOpt x.as_boolean .InvalidArgument "Failed to convert httpOnly to boolean"
    | none => pure false
  return { name := name, value := value, path := path, domain := domain,
           expiry := expiry, maxAge := max_age, secure := secure,
           httpOnly := http_only }

/-- `impl ToJson for AddCookieParameters` (`src/command.rs` lines
783–796): always inserts all eight keys. -/
def AddCookieParameters.to_json (p : AddCookieParameters) : Json :=
  mkObj [("name", .str p.name),
         ("value", .str p.value),
         ("path", p.path.to_json Json.str),
         ("domain", p.domain.to_json Json.str),
         ("expiry", p.expiry.to_json Date.to_json),
         ("maxAge", p.maxAge.to_json Date.to_json),
         ("secure", .boolean p.secure),
         ("httpOnly", .boolean p.httpOnly)]

/-- `SendAlertTextParameters` (`src/command.rs` lines 798–801). -/
structure SendAlertTextParameters where
  keysToSend : String
deriving DecidableEq

/-- `impl Parameters for SendAlertTextParameters` (`src/command.rs` lines
803–817).  Note the missing-field message names `'handle'`. -/
def SendAlertTextParameters.from_json (body : Json) :
    WebDriverResult SendAlertTextParameters := do
  let data ← tryOpt body.as_object .InvalidArgument "Message body was not an object"
  let keys ← tryOpt (← tryOpt (data.lookup "keysToSend") .InvalidArgument
        "Missing 'handle' parameter").as_string .InvalidArgument
        "'keysToSend' not a string"
  return { keysToSend := keys }

/-- `impl ToJson for SendAlertTextParameters` (`src/command.rs` lines
819–825). -/
def SendAlertTextParameters.to_json (p : SendAlertTextParameters) : Json :=
  mkObj [("keysToSend", .str p.keysToSend)]

/-- `TakeScreenshotParameters` (`src/command.rs` lines 827–830). -/
structure TakeScreenshotParameters where
  element : Nullable WebElement
deriving DecidableEq

/-- Modelled from the spec: `WebElement::from_json` — an element handle
decoded from its JSON form (a string id). -/
def WebElement.from_json (j : Json) : WebDriverResult WebElement :=
  match j.as_string with
  | some s => .ok (WebElement.new s)
  | none => .error (WebDriverError.new .InvalidArgument "Could not convert to WebElement")

/-- `impl Parameters for TakeScreenshotParameters` (`src/command.rs` lines
832–850). -/
def TakeScreenshotParameters.from_json (body : Json) :
    WebDriverResult TakeScreenshotParameters := do
  let data ← tryOpt body.as_object .InvalidArgument "Message body was not an object"
  let element ← match data.lookup "element" with
    | some element_json => Nullable.from_json element_json WebElement.from_json
    | none => pure Nullable.null
  return { element := element }

/-- `impl ToJson for TakeScreenshotParameters` (`src/command.rs` lines
852–858). -/
def TakeScreenshotParameters.to_json (p : TakeScreenshotParameters) : Json :=
  mkObj [("element", p.element.to_json (fun e => .str e.id))]

/-! ## `src/command.rs`: command model, decoder and encoder -/

/-- Modelled from the spec: the router's `Route` enum (`httpapi.rs`, not
under `src/`): one closed tag per endpoint, exactly the tags matched in
`WebDriverMessage::from_http`. -/
inductive Route where
  | NewSession
  | DeleteSession
  | Get
  | GetCurrentUrl
  | GoBack
  | GoForward
  | Refresh
  | GetTitle
  | GetWindowHandle
  | GetWindowHandles
  | Close
  | SetTimeouts
  | SetWindowSize
  | GetWindowSize
  | MaximizeWindow
  | SwitchToWindow
  | SwitchToFrame
  | SwitchToParentFrame
  | FindElement
  | FindElements
  | FindElementElement
  | FindElementElements
  | IsDisplayed
  | IsSelected
  | GetElementAttribute
  | GetCSSValue
  | GetElementText
  | GetElementTagName
  | GetElementRect
  | IsEnabled
  | ElementClick
  | ElementTap
  | ElementClear
  | ElementSendKeys
  | ExecuteScript
  | ExecuteAsyncScript
  | GetCookies
  | GetCookie
  | AddCookie
  | DeleteCookies
  | DeleteCookie
  | DismissAlert
  | AcceptAlert
  | GetAlertText
  | SendAlertText
  | TakeScreenshot
deriving DecidableEq

/-- Modelled from the spec: the router's regex `Captures` — an opaque
named-capture lookup, `params.name(key)` returning the captured string if
the key was captured. -/
abbrev Captures := List (String × String)

def Captures.name (params : Captures) (key : String) : Option String :=
  List.lookup key params

/-- `WebDriverCommand` (`src/command.rs` lines 10–60). -/
inductive WebDriverCommand where
  | NewSession
  | DeleteSession
  | Get (p : GetParameters)
  | GetCurrentUrl
  | GoBack
  | GoForward
  | Refresh
  | GetTitle
  | GetWindowHandle
  | GetWindowHandles
  | Close
  | SetWindowSize (p : WindowSizeParameters)
  | GetWindowSize
  | MaximizeWindow
  | SwitchToWindow (p : SwitchToWindowParameters)
  | SwitchToFrame (p : SwitchToFrameParameters)
  | SwitchToParentFrame
  | FindElement (p : LocatorParameters)
  | FindElements (p : LocatorParameters)
  | FindElementElement (e : WebElement) (p : LocatorParameters)
  | FindElementElements (e : WebElement) (p : LocatorParameters)
  | IsDisplayed (e : WebElement)
  | IsSelected (e : WebElement)
  | GetElementAttribute (e : WebElement) (attr : String)
  | GetCSSValue (e : WebElement) (pn : String)
  | GetElementText (e : WebElement)
  | GetElementTagName (e : WebElement)
  | GetElementRect (e : WebElement)
  | IsEnabled (e : WebElement)
  | ExecuteScript (p : JavascriptCommandParameters)
  | ExecuteAsyncScript (p : JavascriptCommandParameters)
  | GetCookies
  | GetCookie (n : String)
  | AddCookie (p : AddCookieParameters)
  | DeleteCookies
  | DeleteCookie (n : String)
  | SetTimeouts (p : TimeoutsParameters)
  | ElementClick (e : WebElement)
  | ElementTap (e : WebElement)
  | ElementClear (e : WebElement)
  | ElementSendKeys (e : WebElement) (p : SendKeysParameters)
  | DismissAlert
  | AcceptAlert
  | GetAlertText
  | SendAlertText (p : SendAlertTextParameters)
  | TakeScreenshot

/-- `WebDriverMessage` (`src/command.rs` lines 62–66). -/
structure WebDriverMessage where
  session_id : Option String
  command : WebDriverCommand

/-- `WebDriverMessage::new` (`src/command.rs` lines 69–74). -/
def WebDriverMessage.mkNew (session_id : Option String) (command : WebDriverCommand) :
    WebDriverMessage :=
  { session_id := session_id, command := command }

/-- `WebDriverMessage::get_session_id` (`src/command.rs` lines 291–293). -/
def WebDriverMessage.get_session_id (params : Captures) : Option String :=
  params.name "sessionId"

/-- The body gate of `WebDriverMessage::from_http` (`src/command.rs` lines
78–93): when a body is required, parse it (via the external JSON parser,
passed in as `jsonFromStr`) and demand a JSON object; otherwise the body
is `Json::Null` and is never read. -/
def bodyGate (jsonFromStr : String → Option Json) (body : String)
    (requires_body : Bool) : WebDriverResult Json :=
  if requires_body then
    match jsonFromStr body with
    | some x =>
      match x with
      | .object kvs => .ok (.object kvs)
      | _ => .error (WebDriverError.new .InvalidArgument "Body was not a json object")
    | none => .error (WebDriverError.new .InvalidArgument
        ("Failed to decode request body as json: " ++ body))
  else
    .ok .null

/-- `WebDriverMessage::from_http` (`src/command.rs` lines 76–289), with
the external `Json::from_str` abstracted as `jsonFromStr`. -/
def WebDriverMessage.from_http (jsonFromStr : String → Option Json)
    (match_type : Route) (params : Captures) (body : String)
    (requires_body : Bool) : WebDriverResult WebDriverMessage := do
  let session_id := WebDriverMessage.get_session_id params
  let body_data ← bodyGate jsonFromStr body requires_body
  let command ← (do
    match match_type with
    | .NewSession => return WebDriverCommand.NewSession
    | .DeleteSession => return WebDriverCommand.DeleteSession
    | .Get => return WebDriverCommand.Get (← GetParameters.from_json body_data)
    | .GetCurrentUrl => return WebDriverCommand.GetCurrentUrl
    | .GoBack => return WebDriverCommand.GoBack
    | .GoForward => return WebDriverCommand.GoForward
    | .Refresh => return WebDriverCommand.Refresh
    | .GetTitle => return WebDriverCommand.GetTitle
    | .GetWindowHandle => return WebDriverCommand.GetWindowHandle
    | .GetWindowHandles => return WebDriverCommand.GetWindowHandles
    | .Close => return WebDriverCommand.Close
    | .SetTimeouts =>
        return WebDriverCommand.SetTimeouts (← TimeoutsParameters.from_json body_data)
    | .SetWindowSize =>
        return WebDriverCommand.SetWindowSize (← WindowSizeParameters.from_json body_data)
    | .GetWindowSize => return WebDriverCommand.GetWindowSize
    | .MaximizeWindow => return WebDriverCommand.MaximizeWindow
    | .SwitchToWindow =>
        return WebDriverCommand.SwitchToWindow
          (← SwitchToWindowParameters.from_json body_data)
    | .SwitchToFrame =>
        return WebDriverCommand.SwitchToFrame
          (← SwitchToFrameParameters.from_json body_data)
    | .SwitchToParentFrame => return WebDriverCommand.SwitchToParentFrame
    | .FindElement =>
        return WebDriverCommand.FindElement (← LocatorParameters.from_json body_data)
    | .FindElements =>
        return WebDriverCommand.FindElements (← LocatorParameters.from_json body_data)
    | .FindElementElement => do
        let element_id ← tryOpt (params.name "elementId") .InvalidArgument
          "Missing elementId parameter"
        let element := WebElement.new element_id
        let parameters ← LocatorParameters.from_json body_data
        return WebDriverCommand.FindElementElement element parameters
    | .FindElementElements => do
        let element_id ← tryOpt (params.name "elementId") .InvalidArgument
          "Missing elementId parameter"
        let element := WebElement.new element_id
        let parameters ← LocatorParameters.from_json body_data
        return WebDriverCommand.FindElementElements element parameters
    | .IsDisplayed => do
        let element_id ← tryOpt (params.name "elementId") .InvalidArgument
          "Missing elementId parameter"
        return WebDriverCommand.IsDisplayed (WebElement.new element_id)
    | .IsSelected => do
        let element_id ← tryOpt (params.name "elementId") .InvalidArgument
          "Missing elementId parameter"
        return WebDriverCommand.IsSelected (WebElement.new element_id)
    | .GetElementAttribute => do
        let element_id ← tryOpt (params.name "elementId") .InvalidArgument
          "Missing elementId parameter"
        let attr ← tryOpt (params.name "name") .InvalidArgument
          "Missing name parameter"
        return WebDriverCommand.GetElementAttribute (WebElement.new element_id) attr
    | .GetCSSValue => do
        let element_id ← tryOpt (params.name "elementId") .InvalidArgument
          "Missing elementId parameter"
        let property ← tryOpt (params.name "propertyName") .InvalidArgument
          "Missing propertyName parameter"
        return WebDriverCommand.GetCSSValue (WebElement.new element_id) property
    | .GetElementText => do
        let element_id ← tryOpt (params.name "elementId") .InvalidArgument
          "Missing elementId parameter"
        return WebDriverCommand.GetElementText (WebElement.new element_id)
    | .GetElementTagName => do
        let element_id ← tryOpt (params.name "elementId") .InvalidArgument
          "Missing elementId parameter"
        return WebDriverCommand.GetElementTagName (WebElement.new element_id)
    | .GetElementRect => do
        let element_id ← tryOpt (params.name "elementId") .InvalidArgument
          "Missing elementId parameter"
        return WebDriverCommand.GetElementRect (WebElement.new element_id)
    | .IsEnabled => do
        let element_id ← tryOpt (params.name "elementId") .InvalidArgument
          "Missing elementId parameter"
        return WebDriverCommand.IsEnabled (WebElement.new element_id)
    | .ElementClick => do
        let element_id ← tryOpt (params.name "elementId") .InvalidArgument
          "Missing elementId parameter"
        return WebDriverCommand.ElementClick (WebElement.new element_id)
    | .ElementTap => do
        let element_id ← tryOpt (params.name "elementId") .InvalidArgument
          "Missing elementId parameter"
        return WebDriverCommand.ElementTap (WebElement.new element_id)
    | .ElementClear => do
        let element_id ← tryOpt (params.name "elementId") .InvalidArgument
          "Missing elementId parameter"
        return WebDriverCommand.ElementClear (WebElement.new element_id)
    | .ElementSendKeys => do
        let element_id ← tryOpt (params.name "elementId") .InvalidArgument
          "Missing elementId parameter"
        let element := WebElement.new element_id
        let parameters ← SendKeysParameters.from_json body_data
        return WebDriverCommand.ElementSendKeys element parameters
    | .ExecuteScript =>
        return WebDriverCommand.ExecuteScript
          (← JavascriptCommandParameters.from_json body_data)
    | .ExecuteAsyncScript =>
        return WebDriverCommand.ExecuteAsyncScript
          (← JavascriptCommandParameters.from_json body_data)
    | .GetCookies => return WebDriverCommand.GetCookies
    | .GetCookie => do
        let n ← tryOpt (params.name "name") .InvalidArgument "Missing name parameter"
        return WebDriverCommand.GetCookie n
    | .AddCookie =>
        return WebDriverCommand.AddCookie (← AddCookieParameters.from_json body_data)
    | .DeleteCookies => return WebDriverCommand.DeleteCookies
    | .DeleteCookie => do
        let n ← tryOpt (params.name "name") .InvalidArgument "Missing name parameter"
        return WebDriverCommand.DeleteCookie n
    | .DismissAlert => return WebDriverCommand.DismissAlert
    | .AcceptAlert => return WebDriverCommand.AcceptAlert
    | .GetAlertText => return WebDriverCommand.GetAlertText
    | .SendAlertText =>
        return WebDriverCommand.SendAlertText
          (← SendAlertTextParameters.from_json body_data)
    | .TakeScreenshot => return WebDriverCommand.TakeScreenshot)
  return WebDriverMessage.mkNew session_id command

/-- `impl ToJson for WebDriverMessage` (`src/command.rs` lines 296–338):
record-carrying variants render their record under `"parameters"`, all
other variants render the empty object. -/
def WebDriverMessage.to_json (msg : WebDriverMessage) : Json :=
  let parameters : Option Json :=
    match msg.command with
    | .NewSession | .DeleteSession | .GetCurrentUrl
    | .GoBack | .GoForward | .Refresh
    | .GetTitle | .GetWindowHandle
    | .GetWindowHandles | .Close
    | .GetWindowSize | .MaximizeWindow
    | .SwitchToParentFrame | .IsDisplayed _
    | .IsSelected _ | .GetElementAttribute _ _
    | .GetCSSValue _ _ | .GetElementText _
    | .GetElementTagName _ | .GetElementRect _
    | .IsEnabled _ | .GetCookies
    | .GetCookie _ | .DeleteCookies
    | .DeleteCookie _ | .DismissAlert
    | .AcceptAlert | .GetAlertText
    | .ElementClick _ | .ElementTap _
    | .ElementClear _ | .TakeScreenshot => none
    | .Get x => some x.to_json
    | .SetTimeouts x => some x.to_json
    | .SetWindowSize x => some x.to_json
    | .SwitchToWindow x => some x.to_json
    | .SwitchToFrame x => some x.to_json
    | .FindElement x => some x.to_json
    | .FindElements x => some x.to_json
    | .FindElementElement _ x => some x.to_json
    | .FindElementElements _ x => some x.to_json
    | .ElementSendKeys _ x => some x.to_json
    | .ExecuteScript x => some x.to_json
    | .ExecuteAsyncScript x => some x.to_json
    | .AddCookie x => some x.to_json
    | .SendAlertText x => some x.to_json
  match parameters with
  | some ps => mkObj [("parameters", ps)]
  | none => mkObj []

/-! ## Representative concrete inputs

The JSON parser is external to the two source files (spec §1), so
`from_http` is parameterized over it; the parsers below fix its behaviour
on the handful of concrete request bodies used in the theorems, exactly
as `rustc_serialize`'s `Json::from_str` would parse those strings. -/

def getBody : String := "\x7b\"url\": \"http://example.com\"\x7d"

def getBodyJson : Json := .object [("url", .str "http://example.com")]

def timeoutsBody : String := "\x7b\"ms\": 1000.0, \"type\": \"script\"\x7d"

def timeoutsBodyJson : Json := .object [("ms", .f64 1000), ("type", .str "script")]

def windowSizeBody : String := "\x7b\"height\": 600, \"width\": 800\x7d"

def windowSizeBodyJson : Json := .object [("height", .u64 600), ("width", .u64 800)]

def switchToWindowBody : String := "\x7b\"handle\": \"win1\"\x7d"

def switchToWindowBodyJson : Json := .object [("handle", .str "win1")]

def switchToFrameBody : String := "\x7b\"id\": 7\x7d"

def switchToFrameBodyJson : Json := .object [("id", .u64 7)]

def locatorBody : String := "\x7b\"using\": \"css selector\", \"value\": \"div\"\x7d"

def locatorBodyJson : Json :=
  .object [("using", .str "css selector"), ("value", .str "div")]

def sendKeysBody : String := "\x7b\"value\": [\"a\", \"b\"]\x7d"

def sendKeysBodyJson : Json := .object [("value", .array [.str "a", .str "b"])]

def scriptBody : String := "\x7b\"args\": null, \"script\": \"return 1;\"\x7d"

def scriptBodyJson : Json := .object [("args", .null), ("script", .str "return 1;")]

def addCookieBody : String :=
  "\x7b\"domain\": \"example.com\", \"expiry\": 100, \"httpOnly\": true, \"maxAge\": 200, \"name\": \"n\", \"path\": \"/\", \"secure\": true, \"value\": \"v\"\x7d"

def addCookieBodyJson : Json :=
  .object [("domain", .str "example.com"), ("expiry", .u64 100),
           ("httpOnly", .boolean true), ("maxAge", .u64 200),
           ("name", .str "n"), ("path", .str "/"),
           ("secure", .boolean true), ("value", .str "v")]

def sendAlertTextBody : String := "\x7b\"keysToSend\": \"hi\"\x7d"

def sendAlertTextBodyJson : Json := .object [("keysToSend", .str "hi")]

/-- A JSON parser fixed on the representative valid bodies above. -/
def reprParse : String → Option Json := fun s =>
  if s = getBody then some getBodyJson
  else if s = timeoutsBody then some timeoutsBodyJson
  else if s = windowSizeBody then some windowSizeBodyJson
  else if s = switchToWindowBody then some switchToWindowBodyJson
  else if s = switchToFrameBody then some switchToFrameBodyJson
  else if s = locatorBody then some locatorBodyJson
  else if s = sendKeysBody then some sendKeysBodyJson
  else if s = scriptBody then some scriptBodyJson
  else if s = addCookieBody then some addCookieBodyJson
  else if s = sendAlertTextBody then some sendAlertTextBodyJson
  else none

/-- A JSON parser that parses `"[]"` to an empty array (a syntactically
valid JSON body that is not an object) and rejects everything else. -/
def arrParse : String → Option Json := fun s =>
  if s = "[]" then some (.array []) else none

/-- A JSON parser that parses `"\x7b\x7d"` to the empty object and
rejects everything else. -/
def emptyObjParse : String → Option Json := fun s =>
  if s = "\x7b\x7d" then some (.object []) else none

/-- Path captures carrying an element id (and no session id). -/
def elemCaptures : Captures := [("elementId", "elem-1")]

/-! ## Helper lemmas -/

/-- Any error produced by the body gate carries kind `InvalidArgument`. -/
theorem bodyGate_error_kind (p : String → Option Json) (body : String) (rb : Bool)
    (e : WebDriverError) (h : bodyGate p body rb = .error e) :
    e.error = .InvalidArgument := by
  cases rb with
  | false => exact Except.noConfusion h
  | true =>
    unfold bodyGate at h
    cases hp : p body with
    | none =>
      rw [hp] at h
      injection h with h2
      exact h2 ▸ rfl
    | some j =>
      rw [hp] at h
      cases j
      all_goals first
        | exact Except.noConfusion h
        | (injection h with h2; exact h2 ▸ rfl)

/-- A body-gate failure short-circuits `from_http`. -/
theorem from_http_gate_error (p : String → Option Json) (mt : Route)
    (params : Captures) (body : String) (rb : Bool) (e : WebDriverError)
    (h : bodyGate p body rb = .error e) :
    WebDriverMessage.from_http p mt params body rb = .error e := by
  unfold WebDriverMessage.from_http
  rw [h]
  rfl

/-! ## Claims -/

/-- Claim C1 counterexample: `status_code` does not reproduce the spec
table's wire strings verbatim — the table prints
`element-not-selectable`, the code's wire string is
`"element not selectable"`. -/
theorem c1_counterexample :
    ErrorStatus.status_code .ElementNotSelectable ≠ specTableWire .ElementNotSelectable ∧
    ErrorStatus.status_code .ElementNotSelectable = "element not selectable" ∧
    specTableWire .ElementNotSelectable = "element-not-selectable" :=
  ⟨by decide, rfl, rfl⟩

/-- Claim C1 (amended): for every `ErrorStatus` kind, `status_code` is the
spec table's wire-string entry with each hyphen rendered as a space (the
spec's own prose quotes the wire string `"unknown command"` in this
space-separated form), and `http_status` matches the table's HTTP status
exactly; in particular `UnknownMethod` and `UnknownPath` both yield the
wire string `"unknown command"` but HTTP statuses 405 and 404
respectively. -/
theorem c1_error_status_tables (k : ErrorStatus) :
    k.status_code = despace (specTableWire k) ∧
    k.http_status = specTableHttp k ∧
    ErrorStatus.status_code .UnknownMethod = "unknown command" ∧
    ErrorStatus.status_code .UnknownPath = "unknown command" ∧
    ErrorStatus.http_status .UnknownMethod = 405 ∧
    ErrorStatus.http_status .UnknownPath = 404 := by
  refine ⟨?_, ?_, rfl, rfl, rfl, rfl⟩ <;> cases k <;> rfl

/-- Claim C9: `WebDriverError::new` always sets `delete_session = false`
and captures a diagnostic trace at construction, and `to_json` of any
`WebDriverError` is a JSON object with exactly the keys `error` (the
kind's wire string), `message` and `stacktrace`. -/
theorem c9_error_construction (k : ErrorStatus) (msg : String) (e : WebDriverError) :
    (WebDriverError.new k msg).delete_session = false ∧
    (WebDriverError.new k msg).backtrace = Backtrace.new ∧
    (WebDriverError.new k msg).error = k ∧
    (WebDriverError.new k msg).message = msg ∧
    e.to_json.objKeys = ["error", "message", "stacktrace"] ∧
    e.to_json.getKey "error" = some (.str e.error.status_code) ∧
    e.to_json.getKey "message" = some (.str e.message) ∧
    e.to_json.getKey "stacktrace" = some (.str e.backtrace.render) :=
  ⟨rfl, rfl, rfl, rfl, rfl, rfl, rfl, rfl⟩

/-- Claim C7: decoding `AddCookie` from `\x7b"name":"x","value":"y"\x7d`
succeeds with `secure = false`, `httpOnly = false` and the four optional
fields in the null state of `Nullable`. -/
theorem c7_add_cookie_defaults :
    AddCookieParameters.from_json (.object [("name", .str "x"), ("value", .str "y")])
      = .ok { name := "x", value := "y", path := .null, domain := .null,
              expiry := .null, maxAge := .null, secure := false, httpOnly := false } :=
  rfl

/-- Claim C10: `AddCookieParameters::to_json` always emits exactly the
eight keys `domain, expiry, httpOnly, maxAge, name, path, secure,
httpOnly` (key-sorted), rendering optional fields that were absent from
the request body as explicit JSON `null` — so the encoded record carries
keys (`path`, …) the original body never had. -/
theorem c10_add_cookie_encoding (p : AddCookieParameters) :
    p.to_json.objKeys
      = ["domain", "expiry", "httpOnly", "maxAge", "name", "path", "secure", "value"] ∧
    (AddCookieParameters.from_json
        (.object [("name", .str "x"), ("value", .str "y")])).map
        AddCookieParameters.to_json
      = .ok (.object [("domain", .null), ("expiry", .null),
                      ("httpOnly", .boolean false), ("maxAge", .null),
                      ("name", .str "x"), ("path", .null),
                      ("secure", .boolean false), ("value", .str "y")]) ∧
    (Json.object [("name", .str "x"), ("value", .str "y")]).getKey "path" = none ∧
    (Json.object [("name", .str "x"), ("value", .str "y")]).objKeys = ["name", "value"] :=
  ⟨rfl, rfl, rfl, rfl⟩

/-- Claim C6: `SendKeys` decoding — `["a","b"]` gives the two-character
sequence, `[]` gives the empty sequence, and any array element that is a
string of length other than one (such as `"ab"` or `""`) fails with kind
`InvalidArgument`. -/
theorem c6_send_keys :
    SendKeysParameters.from_json (.object [("value", .array [.str "a", .str "b"])])
      = .ok { value := ['a', 'b'] } ∧
    SendKeysParameters.from_json (.object [("value", .array [])])
      = .ok { value := [] } ∧
    (∀ s : String, s.length ≠ 1 →
      errKind (SendKeysParameters.from_json (.object [("value", .array [.str s])]))
        = some .InvalidArgument) := by
  refine ⟨rfl, rfl, ?_⟩
  intro s hs
  obtain ⟨l⟩ := s
  rcases l with _ | ⟨c, _ | ⟨c2, rest⟩⟩
  · rfl
  · exact absurd rfl hs
  · rfl

/-- Witness for C6: the hypothesis of the universally quantified part is
satisfiable at `s = "ab"`. -/
theorem c6_send_keys_witness :
    errKind (SendKeysParameters.from_json (.object [("value", .array [.str "ab"])]))
      = some .InvalidArgument :=
  c6_send_keys.2.2 "ab" (by decide)

/-- Claim C2: the `from_http` body gate — with a required body, a body
that fails to parse, or parses to a non-object JSON value, fails with
kind `InvalidArgument`; with no body required the body string is treated
as JSON null and the result never depends on its content. -/
theorem c2_body_gate (p : String → Option Json) (mt : Route) (params : Captures)
    (body : String) :
    (p body = none →
      errKind (WebDriverMessage.from_http p mt params body true)
        = some .InvalidArgument) ∧
    (∀ j, p body = some j → j.as_object = none →
      errKind (WebDriverMessage.from_http p mt params body true)
        = some .InvalidArgument) ∧
    (∀ body2, WebDriverMessage.from_http p mt params body false
      = WebDriverMessage.from_http p mt params body2 false) := by
  refine ⟨?_, ?_, fun _ => rfl⟩
  · intro h
    have hg : bodyGate p body true
        = .error (WebDriverError.new .InvalidArgument
            ("Failed to decode request body as json: " ++ body)) := by
      unfold bodyGate
      rw [h]
      rfl
    rw [from_http_gate_error p mt params body true _ hg]
    rfl
  · intro j hj hobj
    have hg : bodyGate p body true
        = .error (WebDriverError.new .InvalidArgument "Body was not a json object") := by
      unfold bodyGate
      rw [hj]
      cases j
      case object kvs => exact absurd hobj (by simp [Json.as_object])
      all_goals rfl
    rw [from_http_gate_error p mt params body true _ hg]
    rfl

/-- Witness for C2: a parser that fails on `"nope"` and parses `"[]"` to
a JSON array (not an object); both requests fail with `InvalidArgument`. -/
theorem c2_body_gate_witness :
    errKind (WebDriverMessage.from_http arrParse .Get [] "nope" true)
      = some .InvalidArgument ∧
    errKind (WebDriverMessage.from_http arrParse .Get [] "[]" true)
      = some .InvalidArgument :=
  ⟨(c2_body_gate arrParse .Get [] "nope").1 rfl,
   (c2_body_gate arrParse .Get [] "[]").2.1 (.array []) rfl rfl⟩

/-- Claim C3 counterexample: `SwitchToFrameParameters::from_json` on a
body missing the required `id` field fails with kind `UnknownError`, not
`InvalidArgument` as the claim demands. -/
theorem c3_counterexample :
    errKind (SwitchToFrameParameters.from_json (.object [])) ≠ some .InvalidArgument ∧
    errKind (SwitchToFrameParameters.from_json (.object [])) = some .UnknownError :=
  ⟨by decide, rfl⟩

/-- `tryOpt` on a present value. -/
theorem tryOptSome {α : Type} (v : α) (k : ErrorStatus) (m : String) :
    tryOpt (some v) k m = .ok v := rfl

/-- `tryOpt` on an absent value. -/
theorem tryOptNone {α : Type} (k : ErrorStatus) (m : String) :
    tryOpt (none : Option α) k m = .error (WebDriverError.new k m) := rfl

/-- `?` on an `Ok` continues with the value. -/
theorem exceptBindOk {α β : Type} (a : α) (f : α → WebDriverResult β) :
    (Except.ok a >>= f : WebDriverResult β) = f a := rfl

/-- `?` on an `Err` propagates the error. -/
theorem exceptBindErr {α β : Type} (e : WebDriverError) (f : α → WebDriverResult β) :
    (Except.error e >>= f : WebDriverResult β) = .error e := rfl

/-- Claim C3 (amended): over every JSON object body, for the cited
validators — `GetParameters` fails a missing `url` with `InvalidArgument`
`"Missing 'url' parameter"` and a present non-string `url` with
`InvalidArgument` `"'url' not a string"`; `SendAlertTextParameters` fails
a missing `keysToSend` with `InvalidArgument` but message
`"Missing 'handle' parameter"` (naming the wrong field) and a present
non-string `keysToSend` with `InvalidArgument`
`"'keysToSend' not a string"`; `SwitchToFrameParameters` fails a missing
`id` with kind `UnknownError`, and a present `id` is delegated to the
`FrameId` codec, whose failures propagate unchanged (so no message naming
the field and expected type is guaranteed there).  Missing-field messages
name the field only, not the expected type. -/
theorem c3_required_field_failures (kvs : List (String × Json)) (v : Json) :
    (kvs.lookup "url" = none →
      GetParameters.from_json (.object kvs)
        = .error (WebDriverError.new .InvalidArgument "Missing 'url' parameter")) ∧
    (kvs.lookup "url" = some v → v.as_string = none →
      GetParameters.from_json (.object kvs)
        = .error (WebDriverError.new .InvalidArgument "'url' not a string")) ∧
    (kvs.lookup "keysToSend" = none →
      SendAlertTextParameters.from_json (.object kvs)
        = .error (WebDriverError.new .InvalidArgument "Missing 'handle' parameter")) ∧
    (kvs.lookup "keysToSend" = some v → v.as_string = none →
      SendAlertTextParameters.from_json (.object kvs)
        = .error (WebDriverError.new .InvalidArgument "'keysToSend' not a string")) ∧
    (kvs.lookup "id" = none →
      SwitchToFrameParameters.from_json (.object kvs)
        = .error (WebDriverError.new .UnknownError "Missing 'id' parameter")) ∧
    (∀ e, kvs.lookup "id" = some v → FrameId.from_json v = .error e →
      SwitchToFrameParameters.from_json (.object kvs) = .error e) := by
  refine ⟨?_, ?_, ?_, ?_, ?_, ?_⟩
  · intro h
    simp only [GetParameters.from_json, Json.as_object, tryOptSome, exceptBindOk, h,
               tryOptNone, exceptBindErr]
  · intro h hv
    simp only [GetParameters.from_json, Json.as_object, tryOptSome, exceptBindOk, h,
               hv, tryOptNone, exceptBindErr]
  · intro h
    simp only [SendAlertTextParameters.from_json, Json.as_object, tryOptSome,
               exceptBindOk, h, tryOptNone, exceptBindErr]
  · intro h hv
    simp only [SendAlertTextParameters.from_json, Json.as_object, tryOptSome,
               exceptBindOk, h, hv, tryOptNone, exceptBindErr]
  · intro h
    simp only [SwitchToFrameParameters.from_json, Json.as_object, tryOptSome,
               exceptBindOk, h, tryOptNone, exceptBindErr]
  · intro e h he
    simp only [SwitchToFrameParameters.from_json, Json.as_object, tryOptSome,
               exceptBindOk, h, he, exceptBindErr]

/-- Witness for C3 (amended): each hypothesis discharged at a concrete
body — empty objects for the missing-field cases, number- and
boolean-valued fields for the wrong-type cases. -/
theorem c3_required_field_failures_witness :
    GetParameters.from_json (.object [])
      = .error (WebDriverError.new .InvalidArgument "Missing 'url' parameter") ∧
    GetParameters.from_json (.object [("url", .u64 1)])
      = .error (WebDriverError.new .InvalidArgument "'url' not a string") ∧
    SendAlertTextParameters.from_json (.object [])
      = .error (WebDriverError.new .InvalidArgument "Missing 'handle' parameter") ∧
    SendAlertTextParameters.from_json (.object [("keysToSend", .u64 1)])
      = .error (WebDriverError.new .InvalidArgument "'keysToSend' not a string") ∧
    SwitchToFrameParameters.from_json (.object [])
      = .error (WebDriverError.new .UnknownError "Missing 'id' parameter") ∧
    SwitchToFrameParameters.from_json (.object [("id", .boolean true)])
      = .error (WebDriverError.new .InvalidArgument "Invalid frame id") :=
  ⟨(c3_required_field_failures [] .null).1 rfl,
   (c3_required_field_failures [("url", .u64 1)] (.u64 1)).2.1 rfl rfl,
   (c3_required_field_failures [] .null).2.2.1 rfl,
   (c3_required_field_failures [("keysToSend", .u64 1)] (.u64 1)).2.2.2.1 rfl rfl,
   (c3_required_field_failures [] .null).2.2.2.2.1 rfl,
   (c3_required_field_failures [("id", .boolean true)] (.boolean true)).2.2.2.2.2
     (WebDriverError.new .InvalidArgument "Invalid frame id") rfl rfl⟩

/-- Claim C4 counterexample: `SendKeysParameters::from_json` on a JSON
array body fails with kind `InvalidArgument`, not `UnknownError` as the
claim demands for every validator. -/
theorem c4_counterexample :
    errKind (SendKeysParameters.from_json (.array [])) ≠ some .UnknownError ∧
    errKind (SendKeysParameters.from_json (.array [])) = some .InvalidArgument ∧
    errMessage (SendKeysParameters.from_json (.array []))
      = some "Message body was not an object" :=
  ⟨by decide, rfl, rfl⟩

/-- Claim C4 (amended): every validator fails a non-object body with the
message `"Message body was not an object"`, but only six validators
(`Get`, `Timeouts`, `WindowSize`, `SwitchToWindow`, `Locator`,
`SwitchToFrame`) use kind `UnknownError`; the other six (`SendKeys`,
`JavascriptCommand`, `GetCookie`, `AddCookie`, `SendAlertText`,
`TakeScreenshot`) use kind `InvalidArgument`. -/
theorem c4_nonobject_body (j : Json) (h : j.as_object = none) :
    (errKind (GetParameters.from_json j) = some .UnknownError ∧
     errKind (TimeoutsParameters.from_json j) = some .UnknownError ∧
     errKind (WindowSizeParameters.from_json j) = some .UnknownError ∧
     errKind (SwitchToWindowParameters.from_json j) = some .UnknownError ∧
     errKind (LocatorParameters.from_json j) = some .UnknownError ∧
     errKind (SwitchToFrameParameters.from_json j) = some .UnknownError) ∧
    (errKind (SendKeysParameters.from_json j) = some .InvalidArgument ∧
     errKind (JavascriptCommandParameters.from_json j) = some .InvalidArgument ∧
     errKind (GetCookieParameters.from_json j) = some .InvalidArgument ∧
     errKind (AddCookieParameters.from_json j) = some .InvalidArgument ∧
     errKind (SendAlertTextParameters.from_json j) = some .InvalidArgument ∧
     errKind (TakeScreenshotParameters.from_json j) = some .InvalidArgument) ∧
    (errMessage (GetParameters.from_json j) = some "Message body was not an object" ∧
     errMessage (TimeoutsParameters.from_json j)
       = some "Message body was not an object" ∧
     errMessage (WindowSizeParameters.from_json j)
       = some "Message body was not an object" ∧
     errMessage (SwitchToWindowParameters.from_json j)
       = some "Message body was not an object" ∧
     errMessage (LocatorParameters.from_json j)
       = some "Message body was not an object" ∧
     errMessage (SwitchToFrameParameters.from_json j)
       = some "Message body was not an object" ∧
     errMessage (SendKeysParameters.from_json j)
       = some "Message body was not an object" ∧
     errMessage (JavascriptCommandParameters.from_json j)
       = some "Message body was not an object" ∧
     errMessage (GetCookieParameters.from_json j)
       = some "Message body was not an object" ∧
     errMessage (AddCookieParameters.from_json j)
       = some "Message body was not an object" ∧
     errMessage (SendAlertTextParameters.from_json j)
       = some "Message body was not an object" ∧
     errMessage (TakeScreenshotParameters.from_json j)
       = some "Message body was not an object") := by
  cases j
  case object kvs => exact absurd h (by simp [Json.as_object])
  all_goals exact ⟨⟨rfl, rfl, rfl, rfl, rfl, rfl⟩, ⟨rfl, rfl, rfl, rfl, rfl, rfl⟩,
    rfl, rfl, rfl, rfl, rfl, rfl, rfl, rfl, rfl, rfl, rfl, rfl⟩

/-- Witness for C4 (amended): the non-object hypothesis holds at JSON
null. -/
theorem c4_nonobject_body_witness :
    errKind (GetParameters.from_json .null) = some .UnknownError ∧
    errKind (SendKeysParameters.from_json .null) = some .InvalidArgument :=
  ⟨(c4_nonobject_body .null rfl).1.1, (c4_nonobject_body .null rfl).2.1.1⟩

/-- Claim C5: for every record-carrying route there is a representative
valid body whose decode, re-encoded with `to_json`, yields exactly
`\x7b"parameters": <parsed body>\x7d` — the `parameters` value is
field-for-field the parsed input body (`reprParse` maps each body string
to its JSON parse, and each `<route>BodyJson` below is by definition that
parse). -/
theorem c5_round_trip :
    (WebDriverMessage.from_http reprParse .Get [] getBody true).map
        WebDriverMessage.to_json
      = .ok (.object [("parameters", getBodyJson)]) ∧
    (WebDriverMessage.from_http reprParse .SetTimeouts [] timeoutsBody true).map
        WebDriverMessage.to_json
      = .ok (.object [("parameters", timeoutsBodyJson)]) ∧
    (WebDriverMessage.from_http reprParse .SetWindowSize [] windowSizeBody true).map
        WebDriverMessage.to_json
      = .ok (.object [("parameters", windowSizeBodyJson)]) ∧
    (WebDriverMessage.from_http reprParse .SwitchToWindow [] switchToWindowBody true).map
        WebDriverMessage.to_json
      = .ok (.object [("parameters", switchToWindowBodyJson)]) ∧
    (WebDriverMessage.from_http reprParse .SwitchToFrame [] switchToFrameBody true).map
        WebDriverMessage.to_json
      = .ok (.object [("parameters", switchToFrameBodyJson)]) ∧
    (WebDriverMessage.from_http reprParse .FindElement [] locatorBody true).map
        WebDriverMessage.to_json
      = .ok (.object [("parameters", locatorBodyJson)]) ∧
    (WebDriverMessage.from_http reprParse .FindElements [] locatorBody true).map
        WebDriverMessage.to_json
      = .ok (.object [("parameters", locatorBodyJson)]) ∧
    (WebDriverMessage.from_http reprParse .FindElementElement elemCaptures
        locatorBody true).map WebDriverMessage.to_json
      = .ok (.object [("parameters", locatorBodyJson)]) ∧
    (WebDriverMessage.from_http reprParse .FindElementElements elemCaptures
        locatorBody true).map WebDriverMessage.to_json
      = .ok (.object [("parameters", locatorBodyJson)]) ∧
    (WebDriverMessage.from_http reprParse .ElementSendKeys elemCaptures
        sendKeysBody true).map WebDriverMessage.to_json
      = .ok (.object [("parameters", sendKeysBodyJson)]) ∧
    (WebDriverMessage.from_http reprParse .ExecuteScript [] scriptBody true).map
        WebDriverMessage.to_json
      = .ok (.object [("parameters", scriptBodyJson)]) ∧
    (WebDriverMessage.from_http reprParse .ExecuteAsyncScript [] scriptBody true).map
        WebDriverMessage.to_json
      = .ok (.object [("parameters", scriptBodyJson)]) ∧
    (WebDriverMessage.from_http reprParse .AddCookie [] addCookieBody true).map
        WebDriverMessage.to_json
      = .ok (.object [("parameters", addCookieBodyJson)]) ∧
    (WebDriverMessage.from_http reprParse .SendAlertText [] sendAlertTextBody true).map
        WebDriverMessage.to_json
      = .ok (.object [("parameters", sendAlertTextBodyJson)]) :=
  ⟨rfl, rfl, rfl, rfl, rfl, rfl, rfl, rfl, rfl, rfl, rfl, rfl, rfl, rfl⟩

/-- When the body gate passes and the captures lack `elementId`, the two
element-scoped find routes fail on the missing path parameter. -/
theorem from_http_missing_eid (p : String → Option Json) (mt : Route)
    (params : Captures) (body : String) (rb : Bool) (bd : Json)
    (hg : bodyGate p body rb = .ok bd)
    (hel : Captures.name params "elementId" = none)
    (hmt : mt = .FindElementElement ∨ mt = .FindElementElements) :
    WebDriverMessage.from_http p mt params body rb
      = .error (WebDriverError.new .InvalidArgument "Missing elementId parameter") := by
  rcases hmt with rfl | rfl <;>
    (unfold WebDriverMessage.from_http; rw [hg, hel]; rfl)

/-- Claim C8 counterexample: with a required body that fails the body
gate (here `"[]"`, a JSON array), `from_http` on `FindElementElement`
with captures lacking `elementId` reports the body-gate message, not
`"Missing elementId parameter"` as the claim demands for every body
string. -/
theorem c8_counterexample :
    Captures.name [] "elementId" = none ∧
    errMessage (WebDriverMessage.from_http arrParse .FindElementElement [] "[]" true)
      ≠ some "Missing elementId parameter" ∧
    errMessage (WebDriverMessage.from_http arrParse .FindElementElement [] "[]" true)
      = some "Body was not a json object" :=
  ⟨rfl, by decide, rfl⟩

/-- Claim C8 (amended): on `FindElementElement` / `FindElementElements`
with captures lacking `elementId`, `from_http` fails with kind
`InvalidArgument` for every parser, body and body-required flag; the
message is `"Missing elementId parameter"` whenever the body gate passes
(body not required, or the body parses to a JSON object), while a failed
body gate reports its own message (still `InvalidArgument`). -/
theorem c8_missing_element_id (p : String → Option Json) (mt : Route)
    (params : Captures) (body : String) (rb : Bool)
    (hel : Captures.name params "elementId" = none)
    (hmt : mt = .FindElementElement ∨ mt = .FindElementElements) :
    errKind (WebDriverMessage.from_http p mt params body rb)
      = some .InvalidArgument ∧
    (rb = false →
      errMessage (WebDriverMessage.from_http p mt params body rb)
        = some "Missing elementId parameter") ∧
    (∀ kvs, rb = true → p body = some (.object kvs) →
      errMessage (WebDriverMessage.from_http p mt params body rb)
        = some "Missing elementId parameter") := by
  refine ⟨?_, ?_, ?_⟩
  · cases hg : bodyGate p body rb with
    | error e =>
      rw [from_http_gate_error p mt params body rb e hg]
      show some e.error = some ErrorStatus.InvalidArgument
      rw [bodyGate_error_kind p body rb e hg]
    | ok bd =>
      rw [from_http_missing_eid p mt params body rb bd hg hel hmt]
      rfl
  · intro hrb
    subst hrb
    rw [from_http_missing_eid p mt params body false .null rfl hel hmt]
    rfl
  · intro kvs hrb hp
    subst hrb
    have hg : bodyGate p body true = .ok (.object kvs) := by
      unfold bodyGate
      rw [hp]
      rfl
    rw [from_http_missing_eid p mt params body true (.object kvs) hg hel hmt]
    rfl

/-- Witness for C8 (amended): concrete requests — body-required with an
empty-object body, and body-not-required — against empty captures. -/
theorem c8_missing_element_id_witness :
    errKind (WebDriverMessage.from_http emptyObjParse .FindElementElement []
        "\x7b\x7d" true) = some .InvalidArgument ∧
    errMessage (WebDriverMessage.from_http emptyObjParse .FindElementElement []
        "\x7b\x7d" true) = some "Missing elementId parameter" ∧
    errMessage (WebDriverMessage.from_http emptyObjParse .FindElementElements []
        "ignored" false) = some "Missing elementId parameter" :=
  ⟨(c8_missing_element_id emptyObjParse .FindElementElement [] "\x7b\x7d" true rfl
      (Or.inl rfl)).1,
   (c8_missing_element_id emptyObjParse .FindElementElement [] "\x7b\x7d" true rfl
      (Or.inl rfl)).2.2 [] rfl rfl,
   (c8_missing_element_id emptyObjParse .FindElementElements [] "ignored" false rfl
      (Or.inr rfl)).2.1 rfl⟩

end WebdriverRust
